import Mathlib

/-!
# `tks cluster create`: the handler of `cmd/cluster_create.go`

A shallow embedding of the `RunE` function of `clusterCreateCmd` and of the
`init` function that registers its flags.

* Go strings are modelled by `String`, Go `int` by `Int` restricted to the
  64-bit two's complement range, `int32` by `Int` after the truncating
  conversion `int32`.
* The handler's collaborators that live outside the repository are inputs of
  the model, gathered in `World`: the configuration store (`viper.GetString`),
  the channel constructor (`grpc.Dial`), the JSON renderer
  (`protojson.MarshalOptions.Marshal`) and the remote call (`CreateCluster`).
* Everything the handler does to the outside is recorded, in order, in a list
  of `Event`s; how the handler ends is an `Outcome`.
* The flag set (`cmd.Flags()`, package `pflag`) is a finite map from flag
  names to flags, modelled as a function on names.
-/

set_option autoImplicit false

namespace TksClient

/-! ## Flag set -/

/-- The value held by a flag: `pflag` string values and `pflag` int values. -/
inductive FlagValue where
  | str (s : String)
  | int (n : Int)
deriving DecidableEq, Repr

/-- A registered flag: name, current value, default value and help text. -/
structure Flag where
  name : String
  value : FlagValue
  defValue : FlagValue
  usage : String
deriving DecidableEq, Repr

/-- The flags of a command, keyed by name (the `formal` map of a `pflag.FlagSet`). -/
def FlagSet : Type := String → Option Flag

/-- A flag set with no flag registered. -/
def FlagSet.empty : FlagSet := fun _ => none

/-- The flag registered under `name`, if any (`FlagSet.Lookup`). -/
def FlagSet.Lookup (fs : FlagSet) (name : String) : Option Flag := fs name

/-- Registers a flag under its name (`FlagSet.AddFlag`). -/
def FlagSet.AddFlag (fs : FlagSet) (f : Flag) : FlagSet :=
  fun n => if n = f.name then some f else fs n

/-- Registers a string flag with a default value: `Flags().String(name, value, usage)`. -/
def FlagSet.StringFlag (fs : FlagSet) (name value usage : String) : FlagSet :=
  fs.AddFlag { name := name, value := .str value, defValue := .str value, usage := usage }

/-- Registers an int flag with a default value: `Flags().Int(name, value, usage)`. -/
def FlagSet.IntFlag (fs : FlagSet) (name : String) (value : Int) (usage : String) : FlagSet :=
  fs.AddFlag { name := name, value := .int value, defValue := .int value, usage := usage }

/-- Reads a string flag: `Flags().GetString(name)`. The second component is the
error, raised when no flag has that name or when the flag is not a string flag;
the value returned with an error is the empty string. -/
def FlagSet.GetString (fs : FlagSet) (name : String) : String × Option String :=
  match fs.Lookup name with
  | none => ("", some ("flag accessed but not defined: " ++ name))
  | some f =>
    match f.value with
    | .str s => (s, none)
    | .int _ => ("", some ("trying to get string value of flag of type int"))

/-- Reads an int flag: `Flags().GetInt(name)`. The second component is the
error, raised when no flag has that name or when the flag is not an int flag;
the value returned with an error is zero. -/
def FlagSet.GetInt (fs : FlagSet) (name : String) : Int × Option String :=
  match fs.Lookup name with
  | none => (0, some ("flag accessed but not defined: " ++ name))
  | some f =>
    match f.value with
    | .int n => (n, none)
    | .str _ => (0, some ("trying to get int value of flag of type string"))

/-- The range of Go's `int` on a 64-bit platform. -/
def inIntRange (n : Int) : Prop := -(2 : Int) ^ 63 ≤ n ∧ n < (2 : Int) ^ 63

instance (n : Int) : Decidable (inIntRange n) := by
  unfold inIntRange; exact inferInstance

/-- Gives a registered flag a value from the command line (`FlagSet.Set`): the
flag found under `name` has its value replaced, in place.
A string flag stores the text as it is. An int flag stores the integer the text
denotes, which the flag library obtains with `strconv.ParseInt(s, 0, 64)`: the
model starts from that integer, accepted when it fits Go's `int`. The text for
a string flag is always given as `.str`, also when it reads as a number. An
unknown flag and a value of the wrong kind are errors. -/
def FlagSet.Set (fs : FlagSet) (name : String) (v : FlagValue) : Except String FlagSet :=
  match fs.Lookup name with
  | none => .error ("no such flag -" ++ name)
  | some f =>
    match f.value, v with
    | .str _, .str s =>
      .ok (fun n => if n = name then some { f with value := .str s } else fs n)
    | .int _, .int k =>
      if inIntRange k then
        .ok (fun n => if n = name then some { f with value := .int k } else fs n)
      else .error ("invalid argument for flag: value out of range")
    | .str _, .int _ => .error ("invalid argument for flag: not a text")
    | .int _, .str _ => .error ("invalid argument for flag: invalid syntax")

/-- Applies the flags given on the command line, from left to right; the first
failure aborts the parse, and the handler is then not run. -/
def parseFlags (fs : FlagSet) : List (String × FlagValue) → Except String FlagSet
  | [] => .ok fs
  | (name, v) :: rest =>
    match fs.Set name v with
    | .error e => .error e
    | .ok fs1 => parseFlags fs1 rest

/-- The flags of `clusterCreateCmd` as `init` registers them. -/
def init : FlagSet :=
  (((((((FlagSet.empty.StringFlag "contract-id" "" "Contract ID").StringFlag
    "csp-id" "" "CSP ID").StringFlag
    "region" "" "AWS Region").IntFlag
    "num-of-az" 3 "Number of availability zones in selected region").StringFlag
    "ssh-key-name" "" "SSH key name for EC2 instance connection").StringFlag
    "machine-type" "" "machine type of worker node").IntFlag
    "machine-replicas" 3 "machine replicas of worker node").StringFlag
    "template" "aws-reference" "Template name for the cluster"

/-! ## Messages -/

/-- The fields of `pb.ClusterRawConf` the handler fills; the integers are `int32`. -/
structure ClusterRawConf where
  SshKeyName : String
  Region : String
  NumOfAz : Int
  MachineType : String
  MachineReplicas : Int
deriving DecidableEq, Repr

/-- The message `pb.CreateClusterRequest`. -/
structure CreateClusterRequest where
  Name : String
  ContractId : String
  CspId : String
  Conf : ClusterRawConf
  TemplateName : String
deriving DecidableEq, Repr

/-- Go's conversion `int32(n)` of an `int`: the low 32 bits, read as a signed
two's complement number. -/
def int32 (n : Int) : Int := (n + 2 ^ 31) % 2 ^ 32 - 2 ^ 31

/-- The range of `int32`. -/
def inInt32Range (n : Int) : Prop := -(2 : Int) ^ 31 ≤ n ∧ n < (2 : Int) ^ 31

instance (n : Int) : Decidable (inInt32Range n) := by
  unfold inInt32Range; exact inferInstance

/-! ## The world outside the handler -/

/-- What `client.CreateCluster` gives back: the response as `fmt` prints it, and
the error's message when the call failed. -/
structure CallResult where
  r : String
  err : Option String
deriving DecidableEq, Repr

/-- The collaborators of the handler. -/
structure World where
  /-- The configuration store: `viper.GetString(key)`. -/
  GetString : String → String
  /-- The channel constructor `grpc.Dial(target, ...)`: `none` when the channel
  is created, the error's message otherwise. -/
  Dial : String → Option String
  /-- The renderer `protojson.MarshalOptions.Marshal`, set to indent by two
  spaces and to use the proto field names. The handler drops its error: the
  text is then the empty one, which is what it prints. -/
  Marshal : CreateClusterRequest → String
  /-- The remote procedure `CreateCluster` behind the channel. -/
  CreateCluster : CreateClusterRequest → CallResult

/-- What the handler does to the outside, in the order it does it. -/
inductive Event where
  /-- Text written to the standard output. -/
  | stdout (text : String)
  /-- A call of `grpc.Dial` with this target, without transport security. -/
  | dial (target : String)
  /-- A call of `client.CreateCluster` under a context with this timeout, in
  nanoseconds. -/
  | createCluster (timeout : Nat) (data : CreateClusterRequest)
  /-- The deferred `cancel()` of the context. -/
  | cancel
  /-- The deferred `conn.Close()`. -/
  | close
  /-- The message `log.Fatalf` writes before it ends the process. -/
  | fatal (text : String)
deriving DecidableEq, Repr

/-- How the handler ends: it returns to its caller, with an error or with `nil`,
or the process is ended with an exit status. -/
inductive Outcome where
  | returned (err : Option String)
  | exited (status : Nat)
deriving DecidableEq, Repr

/-- An execution of the handler: how it ended, what it did, and the value of the
package variable `tksClusterLcmUrl` at the end. -/
structure Result where
  outcome : Outcome
  trace : List Event
  tksClusterLcmUrl : String
deriving DecidableEq, Repr

/-- The text `fmt.Println` writes for operands already formatted: the operands
separated by one space, then a newline. -/
def Sprintln : List String → String
  | [] => "\n"
  | [a] => a ++ "\n"
  | a :: b :: rest => a ++ " " ++ Sprintln (b :: rest)

/-- The duration `30*time.Minute`, in nanoseconds. -/
def timeout : Nat := 30 * (60 * 1000000000)

/-! ## The handler -/

/-- The part of `RunE` under "Parse command line arguments" and "Construct
request map": the request built from the first positional argument and the
flags. The errors of the flag getters are dropped, as in the source. -/
def buildRequest (cmd : FlagSet) (ClusterName : String) : CreateClusterRequest :=
  let ContractId := (cmd.GetString "contract-id").1
  let CspId := (cmd.GetString "csp-id").1
  let SshKeyName := (cmd.GetString "ssh-key-name").1
  let Region := (cmd.GetString "region").1
  let MachineType := (cmd.GetString "machine-type").1
  let numOfAz := (cmd.GetInt "num-of-az").1
  let machineReplicas := (cmd.GetInt "machine-replicas").1
  let templateName := (cmd.GetString "template").1
  let conf : ClusterRawConf :=
    { SshKeyName := SshKeyName
      Region := Region
      MachineType := MachineType
      NumOfAz := int32 numOfAz
      MachineReplicas := int32 machineReplicas }
  { Name := ClusterName
    ContractId := ContractId
    CspId := CspId
    Conf := conf
    TemplateName := templateName }

/-- The function `RunE` of `clusterCreateCmd`, run with the flag set `cmd`, the
positional arguments `args` and the package variable `tksClusterLcmUrl` holding
`url0`. -/
def RunE (w : World) (cmd : FlagSet) (args : List String) (url0 : String) : Result :=
  match args with
  | [] =>
    { outcome := .returned (some "Usage: tks cluster create <CLUSTERNAME>")
      trace := [.stdout (Sprintln ["You must specify cluster name."])]
      tksClusterLcmUrl := url0 }
  | ClusterName :: _ =>
    let tksClusterLcmUrl := w.GetString "tksClusterLcmUrl"
    if tksClusterLcmUrl = "" then
      { outcome := .returned (some "You must specify tksClusterLcmUrl at config file")
        trace := []
        tksClusterLcmUrl := tksClusterLcmUrl }
    else
      match w.Dial tksClusterLcmUrl with
      | some err =>
        { outcome := .exited 1
          trace := [.dial tksClusterLcmUrl,
                    .fatal ("Could not connect to LCM server: " ++ err)]
          tksClusterLcmUrl := tksClusterLcmUrl }
      | none =>
        let data := buildRequest cmd ClusterName
        let jsonBytes := w.Marshal data
        let res := w.CreateCluster data
        let common : List Event :=
          [.dial tksClusterLcmUrl,
           .stdout (Sprintln ["Proto Json data: "]),
           .stdout (Sprintln [jsonBytes]),
           .createCluster timeout data,
           .stdout (Sprintln ["Response:\n", res.r])]
        match res.err with
        | some err =>
          { outcome := .returned (some ("Error: " ++ err))
            trace := common ++ [.cancel, .close]
            tksClusterLcmUrl := tksClusterLcmUrl }
        | none =>
          { outcome := .returned none
            trace := common ++
              [.stdout (Sprintln ["Success: The request to create cluster ", ClusterName,
                                  " was accepted."]),
               .cancel, .close]
            tksClusterLcmUrl := tksClusterLcmUrl }

/-- A network action: dialing the service or calling it. -/
def Event.isNetwork : Event → Bool
  | .dial _ => true
  | .createCluster _ _ => true
  | _ => false

/-- The texts written to the standard output, in order. -/
def output : List Event → List String
  | [] => []
  | .stdout t :: rest => t :: output rest
  | _ :: rest => output rest

/-! ## Sample invocations -/

/-- A world in which the address is configured, the channel is created and the
service accepts the request. -/
def reachable : World :=
  { GetString := fun key => if key = "tksClusterLcmUrl" then "localhost:9110" else ""
    Dial := fun _ => none
    Marshal := fun data => data.Name
    CreateCluster := fun data => { r := "id:\"" ++ data.Name ++ "\"", err := none } }

/-- A world in which no address is configured. -/
def unconfigured : World :=
  { reachable with GetString := fun _ => "" }

/-- A world in which the channel cannot be created. -/
def unreachable : World :=
  { reachable with Dial := fun _ => some "connection refused" }

/-- A world in which the call runs into its deadline. -/
def expiring : World :=
  { reachable with
    CreateCluster := fun _ =>
      { r := "<nil>"
        err := some "rpc error: code = DeadlineExceeded desc = context deadline exceeded" } }

/-- The flag set the handler sees after the command line `supplied` has been
parsed (the flag set of `init` for a command line that does not parse, after
which the handler is not run). -/
def flagsAfter (supplied : List (String × FlagValue)) : FlagSet :=
  match parseFlags init supplied with
  | .ok cmd => cmd
  | .error _ => init

/-- The flags of `cluster create demo --region ap-northeast-2 --num-of-az 2`. -/
def scenario : List (String × FlagValue) :=
  [("region", .str "ap-northeast-2"), ("num-of-az", .int 2)]

/-- The flags of `cluster create demo --num-of-az 2147483648`. -/
def wideNumOfAz : List (String × FlagValue) :=
  [("num-of-az", .int 2147483648)]

/-! ## What the command line supplied -/

/-- The value the command line gives to the flag `name`: that of its last
occurrence, if it occurs. -/
def lastSupplied : List (String × FlagValue) → String → Option FlagValue
  | [], _ => none
  | (n, v) :: rest, name =>
    match lastSupplied rest name with
    | some v1 => some v1
    | none => if n = name then some v else none

/-- The text the command line gives to a string flag, or the flag's default
when the command line does not mention the flag. -/
def suppliedString (supplied : List (String × FlagValue)) (name dflt : String) : String :=
  match lastSupplied supplied name with
  | some (.str s) => s
  | _ => dflt

/-- The integer the command line gives to an int flag, or the flag's default
when the command line does not mention the flag. -/
def suppliedInt (supplied : List (String × FlagValue)) (name : String) (dflt : Int) : Int :=
  match lastSupplied supplied name with
  | some (.int n) => n
  | _ => dflt

/-- The current value of the flag `name`, if the flag is registered. -/
def FlagSet.valueOf (fs : FlagSet) (name : String) : Option FlagValue :=
  (fs name).map (fun f => f.value)

/-- Two flag values are of the same kind. -/
def FlagValue.sameKind : FlagValue → FlagValue → Bool
  | .str _, .str _ => true
  | .int _, .int _ => true
  | _, _ => false

/-! ## Lemmas on the flag set -/

theorem set_valueOf {fs fs1 : FlagSet} {n : String} {v : FlagValue}
    (h : fs.Set n v = .ok fs1) (name : String) :
    fs1.valueOf name = if name = n then some v else fs.valueOf name := by
  unfold FlagSet.Set FlagSet.Lookup at h
  cases hf : fs n with
  | none => simp [hf] at h
  | some f =>
    rw [hf] at h
    cases hv : f.value <;> cases v <;> simp only [hv] at h
    · cases h
      by_cases hn : name = n <;> simp [FlagSet.valueOf, hn]
    · cases h
    · cases h
    · split at h
      · cases h
        by_cases hn : name = n <;> simp [FlagSet.valueOf, hn]
      · cases h

theorem set_sameKind {fs fs1 : FlagSet} {n : String} {v : FlagValue}
    (h : fs.Set n v = .ok fs1) :
    ∃ v0, fs.valueOf n = some v0 ∧ v0.sameKind v = true ∧
      (∀ k, v = .int k → inIntRange k) := by
  unfold FlagSet.Set FlagSet.Lookup at h
  cases hf : fs n with
  | none => simp [hf] at h
  | some f =>
    rw [hf] at h
    cases hv : f.value <;> cases v <;> simp only [hv] at h
    · exact ⟨f.value, by simp [FlagSet.valueOf, hf], by simp [hv, FlagValue.sameKind], by simp⟩
    · cases h
    · cases h
    · split at h
      · rename_i hr
        exact ⟨f.value, by simp [FlagSet.valueOf, hf], by simp [hv, FlagValue.sameKind], by
          intro k hk; cases hk; exact hr⟩
      · cases h

/-- After a successful parse every flag holds the value the command line gave
it last, or the value it had before when the command line does not mention it. -/
theorem parseFlags_valueOf (supplied : List (String × FlagValue)) :
    ∀ (fs cmd : FlagSet), parseFlags fs supplied = .ok cmd → ∀ name,
      cmd.valueOf name =
        match lastSupplied supplied name with
        | some v => some v
        | none => fs.valueOf name := by
  induction supplied with
  | nil =>
    intro fs cmd h name
    simp only [parseFlags] at h
    cases h
    simp [lastSupplied]
  | cons p rest ih =>
    obtain ⟨n, v⟩ := p
    intro fs cmd h name
    simp only [parseFlags] at h
    cases hs : fs.Set n v with
    | error e => simp [hs] at h
    | ok fs1 =>
      rw [hs] at h
      have h1 := ih fs1 cmd h name
      have h2 := set_valueOf hs name
      rw [h1, h2]
      simp only [lastSupplied]
      cases lastSupplied rest name with
      | some v1 => rfl
      | none =>
        by_cases hn : name = n
        · subst hn; simp
        · have hn2 : ¬ n = name := fun e => hn e.symm
          simp [hn, hn2]

/-- A successful parse gives a flag only values of the kind it had before. -/
theorem parseFlags_sameKind (supplied : List (String × FlagValue)) :
    ∀ (fs cmd : FlagSet), parseFlags fs supplied = .ok cmd → ∀ name v0,
      fs.valueOf name = some v0 →
      ∃ v, cmd.valueOf name = some v ∧ v0.sameKind v = true := by
  induction supplied with
  | nil =>
    intro fs cmd h name v0 h0
    simp only [parseFlags] at h
    cases h
    exact ⟨v0, h0, by cases v0 <;> rfl⟩
  | cons p rest ih =>
    obtain ⟨n, v⟩ := p
    intro fs cmd h name v0 h0
    simp only [parseFlags] at h
    cases hs : fs.Set n v with
    | error e => simp [hs] at h
    | ok fs1 =>
      rw [hs] at h
      have h2 := set_valueOf hs name
      by_cases hn : name = n
      · subst hn
        obtain ⟨v0a, ha, hk, _⟩ := set_sameKind hs
        rw [h0] at ha
        cases ha
        simp only [if_true] at h2
        obtain ⟨v1, hv1, hk1⟩ := ih fs1 cmd h name v h2
        refine ⟨v1, hv1, ?_⟩
        cases v0 <;> cases v <;> cases v1 <;> simp_all [FlagValue.sameKind]
      · simp only [hn, if_false] at h2
        exact ih fs1 cmd h name v0 (h2.trans h0)

theorem getString_of_valueOf {fs : FlagSet} {name s : String}
    (h : fs.valueOf name = some (.str s)) : fs.GetString name = (s, none) := by
  unfold FlagSet.valueOf at h
  unfold FlagSet.GetString FlagSet.Lookup
  cases hf : fs name with
  | none => simp [hf] at h
  | some f =>
    simp only [hf, Option.map_some', Option.some.injEq] at h
    simp [h]

theorem getInt_of_valueOf {fs : FlagSet} {name : String} {k : Int}
    (h : fs.valueOf name = some (.int k)) : fs.GetInt name = (k, none) := by
  unfold FlagSet.valueOf at h
  unfold FlagSet.GetInt FlagSet.Lookup
  cases hf : fs name with
  | none => simp [hf] at h
  | some f =>
    simp only [hf, Option.map_some', Option.some.injEq] at h
    simp [h]

/-- After a successful parse a string flag reads as the text supplied last, or
as its previous value. -/
theorem parseFlags_GetString {supplied : List (String × FlagValue)} {fs cmd : FlagSet}
    {name dflt : String} (h : parseFlags fs supplied = .ok cmd)
    (h0 : fs.valueOf name = some (.str dflt)) :
    cmd.GetString name = (suppliedString supplied name dflt, none) := by
  have h1 := parseFlags_valueOf supplied fs cmd h name
  obtain ⟨v, hv, hk⟩ := parseFlags_sameKind supplied fs cmd h name _ h0
  cases v with
  | int k => simp [FlagValue.sameKind] at hk
  | str s =>
    rw [getString_of_valueOf hv]
    unfold suppliedString
    rw [hv] at h1
    cases hl : lastSupplied supplied name with
    | none =>
      rw [hl, h0] at h1
      simp only [Option.some.injEq, FlagValue.str.injEq] at h1
      simp [h1]
    | some v1 =>
      rw [hl] at h1
      simp only [Option.some.injEq] at h1
      subst h1
      rfl

/-- After a successful parse an int flag reads as the integer supplied last, or
as its previous value. -/
theorem parseFlags_GetInt {supplied : List (String × FlagValue)} {fs cmd : FlagSet}
    {name : String} {dflt : Int} (h : parseFlags fs supplied = .ok cmd)
    (h0 : fs.valueOf name = some (.int dflt)) :
    cmd.GetInt name = (suppliedInt supplied name dflt, none) := by
  have h1 := parseFlags_valueOf supplied fs cmd h name
  obtain ⟨v, hv, hk⟩ := parseFlags_sameKind supplied fs cmd h name _ h0
  cases v with
  | str s => simp [FlagValue.sameKind] at hk
  | int k =>
    rw [getInt_of_valueOf hv]
    unfold suppliedInt
    rw [hv] at h1
    cases hl : lastSupplied supplied name with
    | none =>
      rw [hl, h0] at h1
      simp only [Option.some.injEq, FlagValue.int.injEq] at h1
      simp [h1]
    | some v1 =>
      rw [hl] at h1
      simp only [Option.some.injEq] at h1
      subst h1
      rfl

/-! ## Lemmas on the handler -/

/-- A `CreateCluster` call in the trace comes from the last branch of the
handler: there is a first argument, the address is configured, the channel was
created and the request is the one built from the flags. -/
theorem call_in_trace {w : World} {cmd : FlagSet} {args : List String} {url0 : String}
    {d : Nat} {data : CreateClusterRequest}
    (h : Event.createCluster d data ∈ (RunE w cmd args url0).trace) :
    ∃ ClusterName rest, args = ClusterName :: rest ∧
      w.GetString "tksClusterLcmUrl" ≠ "" ∧
      w.Dial (w.GetString "tksClusterLcmUrl") = none ∧
      d = timeout ∧ data = buildRequest cmd ClusterName := by
  cases args with
  | nil => simp [RunE] at h
  | cons ClusterName rest =>
    refine ⟨ClusterName, rest, rfl, ?_⟩
    simp only [RunE] at h
    by_cases hu : w.GetString "tksClusterLcmUrl" = ""
    · simp [hu] at h
    · simp only [hu, if_false] at h
      cases hd : w.Dial (w.GetString "tksClusterLcmUrl") with
      | some e => simp [hd] at h
      | none =>
        simp only [hd] at h
        refine ⟨hu, rfl, ?_⟩
        cases he : (w.CreateCluster (buildRequest cmd ClusterName)).err with
        | some e =>
          simp [he] at h
          exact ⟨h.1, h.2⟩
        | none =>
          simp [he] at h
          exact ⟨h.1, h.2⟩

/-- The values the flags hold right after `init`. -/
theorem init_valueOf :
    init.valueOf "contract-id" = some (.str "") ∧
    init.valueOf "csp-id" = some (.str "") ∧
    init.valueOf "region" = some (.str "") ∧
    init.valueOf "num-of-az" = some (.int 3) ∧
    init.valueOf "ssh-key-name" = some (.str "") ∧
    init.valueOf "machine-type" = some (.str "") ∧
    init.valueOf "machine-replicas" = some (.int 3) ∧
    init.valueOf "template" = some (.str "aws-reference") := by
  simp [init, FlagSet.valueOf, FlagSet.StringFlag, FlagSet.IntFlag, FlagSet.AddFlag,
    FlagSet.empty]

/-- The request built after a successful parse of the command line, field by
field. -/
theorem buildRequest_parsed {supplied : List (String × FlagValue)} {cmd : FlagSet}
    (h : parseFlags init supplied = .ok cmd) (ClusterName : String) :
    buildRequest cmd ClusterName =
      { Name := ClusterName
        ContractId := suppliedString supplied "contract-id" ""
        CspId := suppliedString supplied "csp-id" ""
        Conf :=
          { SshKeyName := suppliedString supplied "ssh-key-name" ""
            Region := suppliedString supplied "region" ""
            MachineType := suppliedString supplied "machine-type" ""
            NumOfAz := int32 (suppliedInt supplied "num-of-az" 3)
            MachineReplicas := int32 (suppliedInt supplied "machine-replicas" 3) }
        TemplateName := suppliedString supplied "template" "aws-reference" } := by
  obtain ⟨h1, h2, h3, h4, h5, h6, h7, h8⟩ := init_valueOf
  simp only [buildRequest, parseFlags_GetString h h1, parseFlags_GetString h h2,
    parseFlags_GetString h h3, parseFlags_GetInt h h4, parseFlags_GetString h h5,
    parseFlags_GetString h h6, parseFlags_GetInt h h7, parseFlags_GetString h h8]

/-- The conversion to `int32` keeps exactly the integers of the `int32` range. -/
theorem int32_eq_iff (n : Int) : int32 n = n ↔ inInt32Range n := by
  unfold int32 inInt32Range
  norm_num
  omega

/-- The conversion to `int32` lands in the `int32` range. -/
theorem int32_inRange (n : Int) : inInt32Range (int32 n) := by
  unfold int32 inInt32Range
  norm_num
  omega

/-! ## The claims -/

/-- C1: for every invocation with zero positional arguments, whatever the flags
and whatever the configured address, the handler returns the usage error
"Usage: tks cluster create <CLUSTERNAME>"; all it does is print one line, so no
connection is dialed and no `CreateCluster` call is issued. -/
theorem C1_no_argument_is_usage_error (w : World) (cmd : FlagSet) (args : List String)
    (url0 : String) (h : args.length = 0) :
    (RunE w cmd args url0).outcome =
        .returned (some "Usage: tks cluster create <CLUSTERNAME>") ∧
      (RunE w cmd args url0).trace = [.stdout "You must specify cluster name.\n"] ∧
      ∀ e ∈ (RunE w cmd args url0).trace, e.isNetwork = false := by
  cases args with
  | nil => simp [RunE, Sprintln, Event.isNetwork]
  | cons a rest => simp at h

theorem C1_witness :
    ([] : List String).length = 0 ∧
      (RunE reachable init [] "").outcome =
        .returned (some "Usage: tks cluster create <CLUSTERNAME>") ∧
      (RunE reachable init [] "").trace = [.stdout "You must specify cluster name.\n"] ∧
      ∀ e ∈ (RunE reachable init [] "").trace, e.isNetwork = false :=
  ⟨rfl, C1_no_argument_is_usage_error reachable init [] "" rfl⟩

/-- C2: for every invocation with at least one positional argument, if the
configured value of `tksClusterLcmUrl` is the empty string then the handler
returns the error "You must specify tksClusterLcmUrl at config file" and has
done nothing before: no dial, no `CreateCluster` call, nothing printed. -/
theorem C2_empty_address_fails_before_connecting (w : World) (cmd : FlagSet)
    (args : List String) (url0 : String) (hargs : 1 ≤ args.length)
    (hurl : w.GetString "tksClusterLcmUrl" = "") :
    (RunE w cmd args url0).outcome =
        .returned (some "You must specify tksClusterLcmUrl at config file") ∧
      (RunE w cmd args url0).trace = [] := by
  cases args with
  | nil => simp at hargs
  | cons a rest => simp [RunE, hurl]

theorem C2_witness :
    1 ≤ ["demo"].length ∧ unconfigured.GetString "tksClusterLcmUrl" = "" ∧
      (RunE unconfigured init ["demo"] "").outcome =
        .returned (some "You must specify tksClusterLcmUrl at config file") ∧
      (RunE unconfigured init ["demo"] "").trace = [] :=
  ⟨by decide, rfl,
    C2_empty_address_fails_before_connecting unconfigured init ["demo"] "" (by decide) rfl⟩

/-- C7: for every invocation in which the connection is established and the
`CreateCluster` call returns an error `e`, the handler returns to its caller
the error "Error: " followed by the message of `e` unchanged; the process is
not ended, and what is printed is the request and the response only, not the
confirmation line. -/
theorem C7_call_error_is_returned (w : World) (cmd : FlagSet) (ClusterName : String)
    (rest : List String) (url0 e : String)
    (hurl : w.GetString "tksClusterLcmUrl" ≠ "")
    (hdial : w.Dial (w.GetString "tksClusterLcmUrl") = none)
    (hcall : (w.CreateCluster (buildRequest cmd ClusterName)).err = some e) :
    (RunE w cmd (ClusterName :: rest) url0).outcome = .returned (some ("Error: " ++ e)) ∧
      output (RunE w cmd (ClusterName :: rest) url0).trace =
        ["Proto Json data: \n",
         w.Marshal (buildRequest cmd ClusterName) ++ "\n",
         "Response:\n" ++ " " ++ (w.CreateCluster (buildRequest cmd ClusterName)).r ++ "\n"] := by
  simp [RunE, hurl, hdial, hcall, output, Sprintln, String.append_assoc]

theorem C7_witness :
    expiring.GetString "tksClusterLcmUrl" ≠ "" ∧
      expiring.Dial (expiring.GetString "tksClusterLcmUrl") = none ∧
      (expiring.CreateCluster (buildRequest init "demo")).err =
        some "rpc error: code = DeadlineExceeded desc = context deadline exceeded" ∧
      (RunE expiring init ["demo"] "").outcome =
        .returned (some ("Error: " ++
          "rpc error: code = DeadlineExceeded desc = context deadline exceeded")) ∧
      output (RunE expiring init ["demo"] "").trace =
        ["Proto Json data: \n",
         expiring.Marshal (buildRequest init "demo") ++ "\n",
         "Response:\n" ++ " " ++ (expiring.CreateCluster (buildRequest init "demo")).r ++ "\n"] :=
  ⟨by decide, rfl, rfl,
    C7_call_error_is_returned expiring init "demo" [] "" _ (by decide) rfl rfl⟩

/-- C8: for every invocation with a cluster name and a non-empty address, if
establishing the connection fails then the process is ended at once with
status 1 after the fatal message: the handler does not return, and apart from
the dial nothing is done, so no request is built or printed, no `CreateCluster`
call is issued and no response is presented. -/
theorem C8_connection_failure_is_fatal (w : World) (cmd : FlagSet) (ClusterName : String)
    (rest : List String) (url0 e : String)
    (hurl : w.GetString "tksClusterLcmUrl" ≠ "")
    (hdial : w.Dial (w.GetString "tksClusterLcmUrl") = some e) :
    (RunE w cmd (ClusterName :: rest) url0).outcome = .exited 1 ∧
      (RunE w cmd (ClusterName :: rest) url0).trace =
        [.dial (w.GetString "tksClusterLcmUrl"),
         .fatal ("Could not connect to LCM server: " ++ e)] ∧
      output (RunE w cmd (ClusterName :: rest) url0).trace = [] ∧
      ∀ d data, Event.createCluster d data ∉ (RunE w cmd (ClusterName :: rest) url0).trace := by
  simp [RunE, hurl, hdial, output]

theorem C8_witness :
    unreachable.GetString "tksClusterLcmUrl" ≠ "" ∧
      unreachable.Dial (unreachable.GetString "tksClusterLcmUrl") = some "connection refused" ∧
      (RunE unreachable init ["demo"] "").outcome = .exited 1 ∧
      (RunE unreachable init ["demo"] "").trace =
        [.dial (unreachable.GetString "tksClusterLcmUrl"),
         .fatal ("Could not connect to LCM server: " ++ "connection refused")] ∧
      output (RunE unreachable init ["demo"] "").trace = [] ∧
      ∀ d data, Event.createCluster d data ∉ (RunE unreachable init ["demo"] "").trace :=
  ⟨by decide, rfl,
    C8_connection_failure_is_fatal unreachable init "demo" [] "" _ (by decide) rfl⟩

/-- C9: for every invocation in which the connection is established and the
`CreateCluster` call succeeds, the handler returns no error and its output is,
in this order, the JSON rendering of the request under its caption, the
response under its caption, and last the confirmation line, which contains
"Success" and the first positional argument character for character. -/
theorem C9_success_output (w : World) (cmd : FlagSet) (ClusterName : String)
    (rest : List String) (url0 : String)
    (hurl : w.GetString "tksClusterLcmUrl" ≠ "")
    (hdial : w.Dial (w.GetString "tksClusterLcmUrl") = none)
    (hcall : (w.CreateCluster (buildRequest cmd ClusterName)).err = none) :
    (RunE w cmd (ClusterName :: rest) url0).outcome = .returned none ∧
      output (RunE w cmd (ClusterName :: rest) url0).trace =
        ["Proto Json data: \n",
         w.Marshal (buildRequest cmd ClusterName) ++ "\n",
         "Response:\n" ++ " " ++ (w.CreateCluster (buildRequest cmd ClusterName)).r ++ "\n",
         "Success: The request to create cluster " ++ " " ++ ClusterName ++ " " ++
           " was accepted." ++ "\n"] ∧
      ∃ line pre post,
        (output (RunE w cmd (ClusterName :: rest) url0).trace).getLast? = some line ∧
        line = "Success" ++ pre ++ ClusterName ++ post := by
  have hout : output (RunE w cmd (ClusterName :: rest) url0).trace =
      ["Proto Json data: \n",
       w.Marshal (buildRequest cmd ClusterName) ++ "\n",
       "Response:\n" ++ " " ++ (w.CreateCluster (buildRequest cmd ClusterName)).r ++ "\n",
       "Success: The request to create cluster " ++ " " ++ ClusterName ++ " " ++
         " was accepted." ++ "\n"] := by
    simp [RunE, hurl, hdial, hcall, output, Sprintln, String.append_assoc]
  refine ⟨by simp [RunE, hurl, hdial, hcall], hout, ?_⟩
  refine ⟨_, ": The request to create cluster  ", "  was accepted.\n", by rw [hout]; rfl, ?_⟩
  simp [String.append_assoc]

theorem C9_witness :
    reachable.GetString "tksClusterLcmUrl" ≠ "" ∧
      reachable.Dial (reachable.GetString "tksClusterLcmUrl") = none ∧
      (reachable.CreateCluster (buildRequest (flagsAfter scenario) "demo")).err = none ∧
      (RunE reachable (flagsAfter scenario) ["demo"] "").outcome = .returned none ∧
      output (RunE reachable (flagsAfter scenario) ["demo"] "").trace =
        ["Proto Json data: \n",
         reachable.Marshal (buildRequest (flagsAfter scenario) "demo") ++ "\n",
         "Response:\n" ++ " " ++
           (reachable.CreateCluster (buildRequest (flagsAfter scenario) "demo")).r ++ "\n",
         "Success: The request to create cluster " ++ " " ++ "demo" ++ " " ++
           " was accepted." ++ "\n"] ∧
      ∃ line pre post,
        (output (RunE reachable (flagsAfter scenario) ["demo"] "").trace).getLast? = some line ∧
        line = "Success" ++ pre ++ "demo" ++ post :=
  ⟨by decide, rfl, rfl,
    C9_success_output reachable (flagsAfter scenario) "demo" [] "" (by decide) rfl rfl⟩

/-- C3: for every invocation that reaches request construction, whatever the
command line supplied, each string field of the request is the text given to
its own flag, exactly, or that flag's default when the flag is not given:
`--contract-id` gives `ContractId`, `--csp-id` gives `CspId`, `--template`
gives `TemplateName`, `--region` gives `Conf.Region`, `--ssh-key-name` gives
`Conf.SshKeyName` and `--machine-type` gives `Conf.MachineType`; no field
depends on another flag. -/
theorem C3_string_flags_reach_their_fields (w : World)
    (supplied : List (String × FlagValue)) (cmd : FlagSet) (args : List String)
    (url0 : String) (d : Nat) (data : CreateClusterRequest)
    (hparse : parseFlags init supplied = .ok cmd)
    (hsent : Event.createCluster d data ∈ (RunE w cmd args url0).trace) :
    data.ContractId = suppliedString supplied "contract-id" "" ∧
      data.CspId = suppliedString supplied "csp-id" "" ∧
      data.TemplateName = suppliedString supplied "template" "aws-reference" ∧
      data.Conf.Region = suppliedString supplied "region" "" ∧
      data.Conf.SshKeyName = suppliedString supplied "ssh-key-name" "" ∧
      data.Conf.MachineType = suppliedString supplied "machine-type" "" := by
  obtain ⟨ClusterName, rest, _, _, _, _, hdata⟩ := call_in_trace hsent
  rw [hdata, buildRequest_parsed hparse]
  exact ⟨rfl, rfl, rfl, rfl, rfl, rfl⟩

theorem C3_witness :
    parseFlags init scenario = .ok (flagsAfter scenario) ∧
      Event.createCluster timeout (buildRequest (flagsAfter scenario) "demo") ∈
        (RunE reachable (flagsAfter scenario) ["demo"] "").trace ∧
      (buildRequest (flagsAfter scenario) "demo").Conf.Region = "ap-northeast-2" ∧
      (buildRequest (flagsAfter scenario) "demo").TemplateName = "aws-reference" ∧
      (buildRequest (flagsAfter scenario) "demo").Conf.SshKeyName = "" :=
  have h := C3_string_flags_reach_their_fields reachable scenario (flagsAfter scenario)
    ["demo"] "" timeout (buildRequest (flagsAfter scenario) "demo") rfl (by decide)
  ⟨rfl, by decide, h.2.2.2.1, h.2.2.1, h.2.2.2.2.1⟩

/-- C4, as stated, fails: `--num-of-az 2147483648` is accepted by the flag, and
the request carries `NumOfAz = -2147483648`. -/
theorem C4_counterexample :
    parseFlags init wideNumOfAz = .ok (flagsAfter wideNumOfAz) ∧
      Event.createCluster timeout (buildRequest (flagsAfter wideNumOfAz) "demo") ∈
        (RunE reachable (flagsAfter wideNumOfAz) ["demo"] "").trace ∧
      suppliedInt wideNumOfAz "num-of-az" 3 = 2147483648 ∧
      (buildRequest (flagsAfter wideNumOfAz) "demo").Conf.NumOfAz = -2147483648 ∧
      (buildRequest (flagsAfter wideNumOfAz) "demo").Conf.NumOfAz ≠ 2147483648 := by
  refine ⟨rfl, by decide, by decide, by decide, by decide⟩

/-- C4, amended: for every integer `n` that `--num-of-az` accepts and every
integer `m` that `--machine-replicas` accepts (the defaults when a flag is not
given), the request carries `int32(n)` and `int32(m)`, values of the `int32`
range; `Conf.NumOfAz` equals `n` exactly when `n` is in the `int32` range, and
`Conf.MachineReplicas` equals `m` exactly when `m` is. -/
theorem C4_int_flags_are_converted_to_int32 (w : World)
    (supplied : List (String × FlagValue)) (cmd : FlagSet) (args : List String)
    (url0 : String) (d : Nat) (data : CreateClusterRequest)
    (hparse : parseFlags init supplied = .ok cmd)
    (hsent : Event.createCluster d data ∈ (RunE w cmd args url0).trace) :
    data.Conf.NumOfAz = int32 (suppliedInt supplied "num-of-az" 3) ∧
      data.Conf.MachineReplicas = int32 (suppliedInt supplied "machine-replicas" 3) ∧
      inInt32Range data.Conf.NumOfAz ∧ inInt32Range data.Conf.MachineReplicas ∧
      (data.Conf.NumOfAz = suppliedInt supplied "num-of-az" 3 ↔
        inInt32Range (suppliedInt supplied "num-of-az" 3)) ∧
      (data.Conf.MachineReplicas = suppliedInt supplied "machine-replicas" 3 ↔
        inInt32Range (suppliedInt supplied "machine-replicas" 3)) := by
  obtain ⟨ClusterName, rest, _, _, _, _, hdata⟩ := call_in_trace hsent
  rw [hdata, buildRequest_parsed hparse]
  exact ⟨rfl, rfl, int32_inRange _, int32_inRange _, int32_eq_iff _, int32_eq_iff _⟩

theorem C4_witness :
    parseFlags init scenario = .ok (flagsAfter scenario) ∧
      Event.createCluster timeout (buildRequest (flagsAfter scenario) "demo") ∈
        (RunE reachable (flagsAfter scenario) ["demo"] "").trace ∧
      (buildRequest (flagsAfter scenario) "demo").Conf.NumOfAz = int32 2 ∧
      (buildRequest (flagsAfter scenario) "demo").Conf.MachineReplicas = int32 3 :=
  have h := C4_int_flags_are_converted_to_int32 reachable scenario (flagsAfter scenario)
    ["demo"] "" timeout (buildRequest (flagsAfter scenario) "demo") rfl (by decide)
  ⟨rfl, by decide, h.1, h.2.1⟩

/-- C5: for every invocation with a cluster name and no flag on the command
line, the request built has `TemplateName = "aws-reference"`, `Conf.NumOfAz = 3`
and `Conf.MachineReplicas = 3`, and `ContractId`, `CspId`, `Conf.Region`,
`Conf.SshKeyName` and `Conf.MachineType` are the empty string. -/
theorem C5_defaults_without_flags (w : World) (cmd : FlagSet) (args : List String)
    (url0 : String) (d : Nat) (data : CreateClusterRequest)
    (hparse : parseFlags init [] = .ok cmd)
    (hsent : Event.createCluster d data ∈ (RunE w cmd args url0).trace) :
    data.TemplateName = "aws-reference" ∧ data.Conf.NumOfAz = 3 ∧
      data.Conf.MachineReplicas = 3 ∧ data.ContractId = "" ∧ data.CspId = "" ∧
      data.Conf.Region = "" ∧ data.Conf.SshKeyName = "" ∧ data.Conf.MachineType = "" := by
  obtain ⟨ClusterName, rest, _, _, _, _, hdata⟩ := call_in_trace hsent
  rw [hdata, buildRequest_parsed hparse]
  refine ⟨rfl, ?_, ?_, rfl, rfl, rfl, rfl, rfl⟩ <;>
    simp [suppliedInt, lastSupplied, int32]

theorem C5_witness :
    parseFlags init [] = .ok init ∧
      Event.createCluster timeout (buildRequest init "demo") ∈
        (RunE reachable init ["demo"] "").trace ∧
      (buildRequest init "demo").TemplateName = "aws-reference" ∧
      (buildRequest init "demo").Conf.NumOfAz = 3 ∧
      (buildRequest init "demo").Conf.MachineReplicas = 3 ∧
      (buildRequest init "demo").ContractId = "" ∧ (buildRequest init "demo").CspId = "" ∧
      (buildRequest init "demo").Conf.Region = "" ∧
      (buildRequest init "demo").Conf.SshKeyName = "" ∧
      (buildRequest init "demo").Conf.MachineType = "" :=
  ⟨rfl, by decide,
    C5_defaults_without_flags reachable init ["demo"] "" timeout (buildRequest init "demo")
      rfl (by decide)⟩

/-- C6, as stated, fails: with two positional arguments the handler does not
return a usage error; it builds and sends the request named after the first. -/
theorem C6_counterexample :
    ["demo", "extra"].length ≠ 1 ∧
      (RunE reachable init ["demo", "extra"] "").outcome = .returned none ∧
      Event.createCluster timeout (buildRequest init "demo") ∈
        (RunE reachable init ["demo", "extra"] "").trace := by
  refine ⟨by decide, by decide, by decide⟩

/-- C6, amended: at least one positional argument is required. For every
invocation that reaches request construction the request's `Name` is the first
positional argument; an invocation with no positional argument is rejected with
the usage error and sends no request; positional arguments after the first are
ignored, the handler behaving as if the first were alone. -/
theorem C6_name_is_first_argument (w : World) (cmd : FlagSet) (args : List String)
    (url0 : String) :
    (∀ d data, Event.createCluster d data ∈ (RunE w cmd args url0).trace →
        args.head? = some data.Name) ∧
      (args.length = 0 →
        (RunE w cmd args url0).outcome =
            .returned (some "Usage: tks cluster create <CLUSTERNAME>") ∧
          ∀ d data, Event.createCluster d data ∉ (RunE w cmd args url0).trace) ∧
      (∀ ClusterName rest, args = ClusterName :: rest →
        RunE w cmd args url0 = RunE w cmd [ClusterName] url0) := by
  refine ⟨?_, ?_, ?_⟩
  · intro d data hsent
    obtain ⟨ClusterName, rest, hargs, _, _, _, hdata⟩ := call_in_trace hsent
    rw [hargs, hdata]
    rfl
  · intro h
    cases args with
    | nil => simp [RunE]
    | cons a rest => simp at h
  · intro ClusterName rest hargs
    rw [hargs]
    rfl

theorem C6_witness :
    (∀ d data, Event.createCluster d data ∈
        (RunE reachable init ["demo", "extra"] "").trace →
        ["demo", "extra"].head? = some data.Name) ∧
      RunE reachable init ["demo", "extra"] "" = RunE reachable init ["demo"] "" :=
  have h := C6_name_is_first_argument reachable init ["demo", "extra"] ""
  ⟨h.1, h.2.2 "demo" ["extra"] rfl⟩

/-- C10, as stated, fails: `cluster create ""` passes the argument check, and
the request sent has the empty string as `Name`. -/
theorem C10_counterexample :
    Event.createCluster timeout (buildRequest init "") ∈
        (RunE reachable init [""] "").trace ∧
      (buildRequest init "").Name = "" := by
  refine ⟨by decide, by decide⟩

/-- C10, amended: for every argument list and every flag setting, if a
`CreateCluster` call is issued then there is a first positional argument and the
`Name` of the request is that argument; `Name` is therefore non-empty exactly
when the first positional argument is a non-empty string. -/
theorem C10_name_present_when_sent (w : World) (cmd : FlagSet) (args : List String)
    (url0 : String) (d : Nat) (data : CreateClusterRequest)
    (hsent : Event.createCluster d data ∈ (RunE w cmd args url0).trace) :
    (∃ rest, args = data.Name :: rest) ∧
      (data.Name ≠ "" ↔ args.head? ≠ some "") := by
  obtain ⟨ClusterName, rest, hargs, _, _, _, hdata⟩ := call_in_trace hsent
  have hname : data.Name = ClusterName := by rw [hdata]; rfl
  refine ⟨⟨rest, by rw [hargs, hname]⟩, ?_⟩
  rw [hargs, hname]
  simp

theorem C10_witness :
    Event.createCluster timeout (buildRequest init "demo") ∈
        (RunE reachable init ["demo"] "").trace ∧
      (∃ rest, ["demo"] = (buildRequest init "demo").Name :: rest) ∧
      ((buildRequest init "demo").Name ≠ "" ↔ ["demo"].head? ≠ some "") :=
  ⟨by decide,
    C10_name_present_when_sent reachable init ["demo"] "" timeout (buildRequest init "demo")
      (by decide)⟩

end TksClient
